import Mathlib

/-!
Verification of the Stock Advisory & Floor-Layout Engine of a retail
inventory dashboard (UGAHacks11 frontend).

The development shallowly embeds the pure computational core of the
repository:

* `checkLevel`, `getStockAdvice`, `getStockStatus`, `getStockRatio`
  (ProductDot.tsx) — per-product stock-health classification;
* `computeStats` (AIPredictionCard.tsx) — sales-velocity and waste-rate
  forecasting from a transaction history;
* `generatePositions`, `getZoneForPoint` (FloorView.tsx) — deterministic
  floor-map layout with persisted drag overrides, together with the
  override-free variant of the same algorithm (earlier FloorView revision);
* `loadSavedPositions`, `setOverride`, `resetPositions` (FloorView.tsx) —
  the override store;
* `filteredPositions` (FloorView.tsx) with `FilterState`
  (FloorFilters.tsx) — the view filter pipeline.

JavaScript numbers are modelled as exact rationals (ℚ); product
quantities and thresholds are non-negative integers (ℕ) per the data
model; transaction timestamps (`new Date(createdAt).getTime()`) are
modelled as millisecond values in ℚ.
-/

/-- Stock status of one storage location (ProductDot.tsx `StockStatus`). -/
inductive StockStatus where
  | healthy
  | low
  | critical
deriving DecidableEq

/-- Product record (types/Product.ts). Quantities are non-negative
integers per the data-model invariant. -/
structure Product where
  id : Option String
  barcode : String
  name : String
  frontQuantity : ℕ
  backQuantity : ℕ
  wasteQuantity : ℕ
  reorderThreshold : ℕ
deriving DecidableEq

/-- Per-product stock advice (ProductDot.tsx `StockAdvice`). -/
structure StockAdvice where
  overall : StockStatus
  frontStatus : StockStatus
  backStatus : StockStatus
  frontAdvice : Option String
  backAdvice : Option String
  needsRestock : Bool
  needsReorder : Bool
deriving DecidableEq

/-- `checkLevel(qty, threshold)` (ProductDot.tsx lines 34–38): critical if
`qty <= Math.ceil(threshold * 0.5)`, low if `qty <= threshold`, else
healthy.  For a natural `threshold`, `Math.ceil(threshold * 0.5)` is
`(threshold + 1) / 2` in natural division. -/
def checkLevel (qty threshold : ℕ) : StockStatus :=
  if qty ≤ (threshold + 1) / 2 then .critical
  else if qty ≤ threshold then .low
  else .healthy

/-- `getStockAdvice(product)` (ProductDot.tsx lines 41–84). -/
def getStockAdvice (product : Product) : StockAdvice :=
  let frontStatus := checkLevel product.frontQuantity product.reorderThreshold
  let backStatus := checkLevel product.backQuantity product.reorderThreshold
  let frontLow := frontStatus != .healthy
  let backLow := backStatus != .healthy
  let hasBackup := decide (0 < product.backQuantity)
  -- overall is the worst of the two
  let overall : StockStatus :=
    if frontStatus == .critical || backStatus == .critical then .critical
    else if frontStatus == .low || backStatus == .low then .low
    else .healthy
  let frontAdvice : Option String :=
    if frontStatus == .critical then
      some (if hasBackup then
        "Critically low — restock from back (" ++ toString product.backQuantity ++ " available)"
      else "Critically low — no back stock, reorder needed")
    else if frontStatus == .low then
      some (if hasBackup then
        "Running low — restock from back (" ++ toString product.backQuantity ++ " available)"
      else "Running low — no back stock, consider reorder")
    else none
  let backAdvice : Option String :=
    if backStatus == .critical then
      some "Critically low — reorder from supplier immediately"
    else if backStatus == .low then
      some "Running low — place supplier reorder soon"
    else none
  { overall := overall
    frontStatus := frontStatus
    backStatus := backStatus
    frontAdvice := frontAdvice
    backAdvice := backAdvice
    needsRestock := frontLow && hasBackup
    needsReorder := backLow }

/-- `getStockStatus(product)` (ProductDot.tsx lines 87–89). -/
def getStockStatus (product : Product) : StockStatus :=
  (getStockAdvice product).overall

/-- Total on-hand stock `frontQuantity + backQuantity` (ProductDot.tsx
line 92, the `total` constant of `getStockRatio`). -/
def totalStockOf (p : Product) : ℕ :=
  p.frontQuantity + p.backQuantity

/-- `Math.max(product.reorderThreshold * 5, total, 1)` (ProductDot.tsx
line 93, the `maxEstimate` constant of `getStockRatio`). -/
def maxEstimate (p : Product) : ℚ :=
  max ((p.reorderThreshold : ℚ) * 5) (max ((totalStockOf p : ℕ) : ℚ) 1)

/-- `getStockRatio(product)` (ProductDot.tsx lines 91–95). -/
def getStockRatio (p : Product) : ℚ :=
  min (((totalStockOf p : ℕ) : ℚ) / maxEstimate p) 1

/-- Severity rank of a status under the ordering
critical > low > healthy. -/
def severity : StockStatus → ℕ
  | .healthy => 0
  | .low => 1
  | .critical => 2

/-- Transaction kind (types/Transaction.ts `transactionType`). -/
inductive TransactionType where
  | CHECKOUT
  | RESTOCK
  | WASTE
  | RECEIVE
deriving DecidableEq

/-- Transaction record (types/Transaction.ts).  `createdAt` is the
timestamp in milliseconds, the value of
`new Date(t.createdAt).getTime()` in AIPredictionCard.tsx. -/
structure Transaction where
  id : String
  productId : String
  barcode : String
  productName : String
  transactionType : TransactionType
  quantity : ℤ
  location : String
  createdAt : ℚ
deriving DecidableEq

/-- Forecast result (AIPredictionCard.tsx `Stats`). -/
structure Stats where
  totalCheckouts : ℕ
  totalRestocks : ℕ
  totalWaste : ℕ
  totalReceived : ℕ
  checkoutVelocity : Option ℚ
  daysUntilFrontEmpty : Option ℤ
  daysUntilBackEmpty : Option ℤ
  wasteRate : Option ℚ
  daysCovered : ℚ
deriving DecidableEq

/-- `transactions.filter(t => t.transactionType === tt)` — the
`checkouts` / `restocks` / `waste` / `received` constants of
`computeStats` (AIPredictionCard.tsx lines 38–41). -/
def byType (tt : TransactionType) (transactions : List Transaction) : List Transaction :=
  transactions.filter (fun t => t.transactionType == tt)

/-- `xs.reduce((s, t) => s + Math.abs(t.quantity), 0)` — the summed
absolute quantities of AIPredictionCard.tsx lines 43–46. -/
def sumAbsQuantities (xs : List Transaction) : ℕ :=
  xs.foldl (fun s t => s + t.quantity.natAbs) 0

/-- `totalCheckouts` (AIPredictionCard.tsx line 43). -/
def totalCheckouts (transactions : List Transaction) : ℕ :=
  sumAbsQuantities (byType .CHECKOUT transactions)

/-- `totalRestocks` (AIPredictionCard.tsx line 44). -/
def totalRestocks (transactions : List Transaction) : ℕ :=
  sumAbsQuantities (byType .RESTOCK transactions)

/-- `totalWaste` (AIPredictionCard.tsx line 45). -/
def totalWaste (transactions : List Transaction) : ℕ :=
  sumAbsQuantities (byType .WASTE transactions)

/-- `totalReceived` (AIPredictionCard.tsx line 46). -/
def totalReceived (transactions : List Transaction) : ℕ :=
  sumAbsQuantities (byType .RECEIVE transactions)

/-- `Math.min(...xs)` over a non-empty list (empty list is never passed:
the caller special-cases an empty transaction history). -/
def minListQ : List ℚ → ℚ
  | [] => 0
  | x :: xs => xs.foldl min x

/-- `Math.max(...xs)` over a non-empty list. -/
def maxListQ : List ℚ → ℚ
  | [] => 0
  | x :: xs => xs.foldl max x

/-- `oldest = Math.min(...allDates)` (AIPredictionCard.tsx lines 48–49). -/
def oldestOf (transactions : List Transaction) : ℚ :=
  minListQ (transactions.map (·.createdAt))

/-- `newest = Math.max(...allDates)` (AIPredictionCard.tsx line 50). -/
def newestOf (transactions : List Transaction) : ℚ :=
  maxListQ (transactions.map (·.createdAt))

/-- `daysCovered = Math.max((newest - oldest) / (1000*60*60*24), 1)`
(AIPredictionCard.tsx lines 51–54). -/
def daysCoveredOf (transactions : List Transaction) : ℚ :=
  max ((newestOf transactions - oldestOf transactions) / (1000 * 60 * 60 * 24)) 1

/-- `computeStats(transactions, product)` (AIPredictionCard.tsx
lines 34–92). -/
def computeStats (transactions : List Transaction) (product : Product) : Stats :=
  let checkoutVelocity : Option ℚ :=
    if 0 < totalCheckouts transactions then
      some ((totalCheckouts transactions : ℚ) / daysCoveredOf transactions)
    else none
  let daysUntilFrontEmpty : Option ℤ :=
    if 0 < totalCheckouts transactions then
      let v := (totalCheckouts transactions : ℚ) / daysCoveredOf transactions
      if 0 < v then some ⌊(product.frontQuantity : ℚ) / v⌋ else none
    else none
  let daysUntilBackEmpty : Option ℤ :=
    if 0 < totalRestocks transactions then
      let rv := (totalRestocks transactions : ℚ) / daysCoveredOf transactions
      if 0 < rv then some ⌊(product.backQuantity : ℚ) / rv⌋ else none
    else none
  let totalThroughput := totalCheckouts transactions + totalWaste transactions
  let wasteRate : Option ℚ :=
    if 0 < totalThroughput then
      some (((totalWaste transactions : ℚ) / (totalThroughput : ℚ)) * 100)
    else none
  { totalCheckouts := totalCheckouts transactions
    totalRestocks := totalRestocks transactions
    totalWaste := totalWaste transactions
    totalReceived := totalReceived transactions
    checkoutVelocity := checkoutVelocity
    daysUntilFrontEmpty := daysUntilFrontEmpty
    daysUntilBackEmpty := daysUntilBackEmpty
    wasteRate := wasteRate
    daysCovered := daysCoveredOf transactions }

/-- A named rectangular floor region (FloorView.tsx `ZONES` entries). -/
structure Zone where
  name : String
  xMin : ℚ
  xMax : ℚ
  yMin : ℚ
  yMax : ℚ
deriving DecidableEq

/-- The first zone, Retail Floor; also used as the never-reached default
of the `ZONES[zoneIndex]` list access (the index is always 0, 1 or 2). -/
def fallbackZone : Zone :=
  ⟨"Retail Floor", 60, 540, 100, 630⟩

/-- `ZONES` (FloorView.tsx lines 27–31). -/
def ZONES : List Zone :=
  [⟨"Retail Floor", 60, 540, 100, 630⟩,
   ⟨"Accessories", 785, 960, 40, 170⟩,
   ⟨"Back Storage", 785, 960, 210, 400⟩]

/-- `getZoneForPoint(x, y)` (FloorView.tsx lines 55–62): first zone whose
rectangle contains the point, else "Retail Floor". -/
def getZoneForPoint (x y : ℚ) : String :=
  match ZONES.find? (fun zone =>
      decide (zone.xMin ≤ x) && decide (x ≤ zone.xMax) &&
      decide (zone.yMin ≤ y) && decide (y ≤ zone.yMax)) with
  | some zone => zone.name
  | none => "Retail Floor"

/-- `barcode.split("").reduce((acc, c) => acc + c.charCodeAt(0), 0)`
(FloorView.tsx lines 82–84): sum of the character codes. -/
def barcodeHash (barcode : String) : ℕ :=
  barcode.data.foldl (fun acc c => acc + c.toNat) 0

/-- `Math.ceil(Math.sqrt(n))` for a natural `n`. -/
def ceilSqrt (n : ℕ) : ℕ :=
  if Nat.sqrt n * Nat.sqrt n = n then Nat.sqrt n else Nat.sqrt n + 1

/-- A persisted override `{x, y}` (FloorView.tsx `SavedPosition`). -/
structure SavedPosition where
  x : ℚ
  y : ℚ
deriving DecidableEq

/-- The override map `Record<string, SavedPosition>` keyed by barcode. -/
abbrev Overrides := String → Option SavedPosition

/-- The empty override map `{}`. -/
def emptyOverrides : Overrides := fun _ => none

/-- `handleDotDragEnd` (FloorView.tsx lines 182–191): merge one override
into the map, `{...prev, [barcode]: {x, y}}`. -/
def setOverride (prev : Overrides) (barcode : String) (x y : ℚ) : Overrides :=
  fun b => if b = barcode then some ⟨x, y⟩ else prev b

/-- `handleResetPositions` (FloorView.tsx lines 194–197): clear the
override map entirely. -/
def resetPositions (_saved : Overrides) : Overrides :=
  fun _ => none

/-- `loadSavedPositions()` (FloorView.tsx lines 41–48).  The storage read
is modelled as an `Option String` (`localStorage.getItem` returns null or
a string) and `JSON.parse` as a fallible parser; the `try/catch` makes a
parse failure, a missing key, and the falsy empty string all yield the
empty map. -/
def loadSavedPositions (stored : Option String)
    (parse : String → Except String Overrides) : Overrides :=
  match stored with
  | none => emptyOverrides
  | some raw =>
    if raw = "" then emptyOverrides
    else
      match parse raw with
      | .ok m => m
      | .error _ => emptyOverrides

/-- A placed product (ProductDot.tsx `ProductPosition`): x ∈ [0,1000],
y ∈ [0,700] in SVG viewBox units. -/
structure ProductPosition where
  product : Product
  x : ℚ
  y : ℚ
  zone : String
deriving DecidableEq

/-- The auto-generation branch of `generatePositions` (FloorView.tsx
lines 81–115) for one product: deterministic zone from the barcode hash
(70/15/15 split), grid cell from the global index, hash-derived jitter,
clamped to 15 units inside the zone. `count` is `products.length`. -/
def assignDefault (count i : ℕ) (product : Product) : ProductPosition :=
  let hash := barcodeHash product.barcode
  let mod := hash % 100
  let zoneIndex : ℕ := if mod < 70 then 0 else if mod < 85 then 1 else 2
  let zone := ZONES.getD zoneIndex fallbackZone
  let cols := ceilSqrt count
  let row := i / cols
  let col := i % cols
  let xRange := zone.xMax - zone.xMin
  let yRange := zone.yMax - zone.yMin
  let xStep := xRange / ((cols : ℚ) + 1)
  let yStep := yRange / ((((count + cols - 1) / cols : ℕ) : ℚ) + 1)
  let xOff := (((hash * 7) % 30 : ℕ) : ℚ) - 15
  let yOff := (((hash * 13) % 30 : ℕ) : ℚ) - 15
  let x := max (zone.xMin + 15)
    (min (zone.xMax - 15) (zone.xMin + xStep * ((col : ℚ) + 1) + xOff))
  let y := max (zone.yMin + 15)
    (min (zone.yMax - 15) (zone.yMin + yStep * ((row : ℚ) + 1) + yOff))
  { product := product, x := x, y := y, zone := zone.name }

/-- `generatePositions(products, saved)` (FloorView.tsx lines 68–117):
per product, use the saved override when present (zone recomputed by
point-in-rectangle test), otherwise the auto-generation branch. -/
def generatePositions (products : List Product) (saved : Overrides) :
    List ProductPosition :=
  if products.length = 0 then []
  else
    products.enum.map (fun ip =>
      match saved ip.2.barcode with
      | some sp =>
        { product := ip.2, x := sp.x, y := sp.y, zone := getZoneForPoint sp.x sp.y }
      | none => assignDefault products.length ip.1 ip.2)

/-- `generatePositions(products)` of the earlier FloorView revision
(no override map): the default layout algorithm, transcribed separately
from its own source text. -/
def defaultGeneratePositions (products : List Product) : List ProductPosition :=
  if products.length = 0 then []
  else
    products.enum.map (fun ip =>
      let hash := barcodeHash ip.2.barcode
      let mod := hash % 100
      let zoneIndex : ℕ := if mod < 70 then 0 else if mod < 85 then 1 else 2
      let zone := ZONES.getD zoneIndex fallbackZone
      let cols := ceilSqrt products.length
      let row := ip.1 / cols
      let col := ip.1 % cols
      let xRange := zone.xMax - zone.xMin
      let yRange := zone.yMax - zone.yMin
      let xStep := xRange / ((cols : ℚ) + 1)
      let yStep := yRange / ((((products.length + cols - 1) / cols : ℕ) : ℚ) + 1)
      let xOff := (((hash * 7) % 30 : ℕ) : ℚ) - 15
      let yOff := (((hash * 13) % 30 : ℕ) : ℚ) - 15
      let x := max (zone.xMin + 15)
        (min (zone.xMax - 15) (zone.xMin + xStep * ((col : ℚ) + 1) + xOff))
      let y := max (zone.yMin + 15)
        (min (zone.yMax - 15) (zone.yMin + yStep * ((row : ℚ) + 1) + yOff))
      { product := ip.2, x := x, y := y, zone := zone.name })

/-- The zone record in `ZONES` bearing a given name (names in `ZONES` are
distinct), used to state the placement invariant. -/
def zoneNamed (s : String) : Zone :=
  match ZONES.find? (fun zone => decide (zone.name = s)) with
  | some zone => zone
  | none => fallbackZone

/-- Filter controls (FloorFilters.tsx lines 3–9 `FilterState`). -/
structure FilterState where
  showCriticalOnly : Bool
  showHeatmap : Bool
  selectedZone : String
  showNeedsRestock : Bool
  showNeedsReorder : Bool
deriving DecidableEq

/-- The `filteredPositions` pipeline (FloorView.tsx lines 152–164): only
the critical-only and zone predicates are ever applied to the position
list. -/
def filteredPositions (allPositions : List ProductPosition)
    (filters : FilterState) : List ProductPosition :=
  let result := allPositions
  let result :=
    if filters.showCriticalOnly then
      result.filter (fun p => getStockStatus p.product == .critical)
    else result
  let result :=
    if filters.selectedZone ≠ "ALL" then
      result.filter (fun p => p.zone == filters.selectedZone)
    else result
  result

/-- Demo product of the spec scenario `{front:2, back:0, threshold:5}`. -/
def demoScenarioProduct : Product :=
  ⟨none, "0001", "demo", 2, 0, 0, 5⟩

/-- The two CHECKOUT transactions of the spec scenario, quantity 10
each, recorded on day 0 and day 5 (5 · 86 400 000 ms). -/
def demoScenarioTxns : List Transaction :=
  [⟨"t1", "p1", "0001", "demo", .CHECKOUT, 10, "FRONT", 0⟩,
   ⟨"t2", "p1", "0001", "demo", .CHECKOUT, 10, "FRONT", 432000000⟩]

/-- Demo product with `frontQuantity = 5` for the velocity scenario. -/
def demoFrontProduct : Product :=
  ⟨none, "0001", "demo", 5, 20, 0, 5⟩

/-- History with one CHECKOUT of 10 and one WASTE of 10 on the same day:
waste rate 10 / 20 · 100 = 50 %. -/
def demoWasteTxns : List Transaction :=
  [⟨"t1", "p1", "0001", "demo", .CHECKOUT, 10, "FRONT", 0⟩,
   ⟨"t2", "p1", "0001", "demo", .WASTE, 10, "FRONT", 0⟩]

/-- Demo product for the layout claims; barcode "A" has hash 65, so the
default placement lands in zone 0 (Retail Floor). -/
def demoLayoutProduct : Product :=
  ⟨none, "A", "demo", 10, 10, 0, 2⟩

/-- The default position computed for `demoLayoutProduct` as the only
product of the list. -/
def demoDefaultPos : ProductPosition :=
  assignDefault 1 0 demoLayoutProduct

/-- A healthy product: front 10 and back 10 are both above threshold 2,
so `needsRestock` and `needsReorder` are both false. -/
def demoHealthyProduct : Product :=
  ⟨none, "111", "healthy demo", 10, 10, 0, 2⟩

/-- A floor position for the healthy demo product. -/
def demoHealthyPosition : ProductPosition :=
  ⟨demoHealthyProduct, 100, 200, "Retail Floor"⟩

/-- Filter state with only the needs-restock filter enabled. -/
def demoRestockFilters : FilterState :=
  ⟨false, false, "ALL", true, false⟩

/-- A parser that rejects every payload, modelling `JSON.parse` throwing
on a corrupt storage payload. -/
def failParse : String → Except String Overrides :=
  fun _ => .error "SyntaxError"

/-- C1: for every product, `needsRestock` holds exactly when the front
status is not healthy and back stock is positive, `needsReorder` exactly
when the back status is not healthy, and `overall` is the worst of the
two statuses under critical > low > healthy; the spec scenario
`{front:2, back:0, threshold:5}` yields
`overall=critical, needsRestock=false, needsReorder=true`. -/
theorem getStockAdvice_spec (p : Product) :
    ((getStockAdvice p).needsRestock = true ↔
      ((getStockAdvice p).frontStatus ≠ .healthy ∧ 0 < p.backQuantity))
    ∧ ((getStockAdvice p).needsReorder = true ↔
      (getStockAdvice p).backStatus ≠ .healthy)
    ∧ severity (getStockAdvice p).overall =
      max (severity (getStockAdvice p).frontStatus)
        (severity (getStockAdvice p).backStatus)
    ∧ ((getStockAdvice p).overall = (getStockAdvice p).frontStatus ∨
      (getStockAdvice p).overall = (getStockAdvice p).backStatus)
    ∧ ((getStockAdvice demoScenarioProduct).overall = .critical
      ∧ (getStockAdvice demoScenarioProduct).needsRestock = false
      ∧ (getStockAdvice demoScenarioProduct).needsReorder = true) := by
  refine ⟨?_, ?_, ?_, ?_, by decide⟩ <;>
    cases hf : checkLevel p.frontQuantity p.reorderThreshold <;>
      cases hb : checkLevel p.backQuantity p.reorderThreshold <;>
        simp [getStockAdvice, hf, hb, severity, decide_eq_true_iff]

/-- C8: increasing the quantity never increases the severity of
`checkLevel`. -/
theorem checkLevel_monotone (threshold q1 q2 : ℕ) (h : q1 ≤ q2) :
    severity (checkLevel q2 threshold) ≤ severity (checkLevel q1 threshold) := by
  simp only [checkLevel]
  split_ifs <;> simp [severity] <;> omega

/-- Witness for C8 at threshold 5, quantities 2 ≤ 9. -/
theorem checkLevel_monotone_witness :
    severity (checkLevel 9 5) ≤ severity (checkLevel 2 5) :=
  checkLevel_monotone 5 2 9 (by decide)

/-- C10: the denominator of `getStockRatio` is at least 1 and the ratio
lies in [0, 1], for every product. -/
theorem getStockRatio_bounds (p : Product) :
    1 ≤ maxEstimate p ∧ 0 ≤ getStockRatio p ∧ getStockRatio p ≤ 1 := by
  have h1 : (1 : ℚ) ≤ maxEstimate p :=
    le_trans (le_max_right _ _) (le_max_right _ _)
  refine ⟨h1, ?_, min_le_right _ _⟩
  have hd : (0 : ℚ) < maxEstimate p := lt_of_lt_of_le one_pos h1
  exact le_min (div_nonneg (by positivity) hd.le) one_pos.le

/-- `daysCovered` is at least 1, hence positive. -/
theorem daysCoveredOf_pos (transactions : List Transaction) :
    0 < daysCoveredOf transactions :=
  lt_of_lt_of_le one_pos (le_max_right _ _)

/-- The scenario history sums to 20 checked-out units. -/
theorem demo_totalCheckouts : totalCheckouts demoScenarioTxns = 20 := rfl

/-- The scenario history covers 5 days. -/
theorem demo_daysCovered : daysCoveredOf demoScenarioTxns = 5 := by
  have h1 : newestOf demoScenarioTxns = max 0 432000000 := rfl
  have h2 : oldestOf demoScenarioTxns = min 0 432000000 := rfl
  unfold daysCoveredOf
  rw [h1, h2, max_eq_right (by norm_num : (0 : ℚ) ≤ 432000000),
    min_eq_left (by norm_num : (0 : ℚ) ≤ 432000000)]
  have h3 : ((432000000 : ℚ) - 0) / (1000 * 60 * 60 * 24) = 5 := by norm_num
  rw [h3]
  exact max_eq_left (by norm_num)

/-- The `checkoutVelocity` field of `computeStats`, by unfolding. -/
theorem computeStats_checkoutVelocity (transactions : List Transaction)
    (product : Product) :
    (computeStats transactions product).checkoutVelocity =
      if 0 < totalCheckouts transactions then
        some ((totalCheckouts transactions : ℚ) / daysCoveredOf transactions)
      else none := rfl

/-- The `daysUntilFrontEmpty` field of `computeStats`, by unfolding. -/
theorem computeStats_daysUntilFrontEmpty (transactions : List Transaction)
    (product : Product) :
    (computeStats transactions product).daysUntilFrontEmpty =
      if 0 < totalCheckouts transactions then
        if 0 < (totalCheckouts transactions : ℚ) / daysCoveredOf transactions then
          some ⌊(product.frontQuantity : ℚ) /
            ((totalCheckouts transactions : ℚ) / daysCoveredOf transactions)⌋
        else none
      else none := rfl

/-- C2: for a non-empty transaction list, `checkoutVelocity` is
`totalCheckouts / daysCovered` when there are checkouts and null
otherwise; `daysUntilFrontEmpty` is `⌊frontQuantity / velocity⌋` exactly
when the velocity exists (it is then automatically positive) and null
otherwise; the spec scenario (two CHECKOUTs of 10, five days apart,
front = 5) gives `daysCovered = 5`, velocity 4 and 1 day of cover. -/
theorem computeStats_velocity_spec (transactions : List Transaction)
    (product : Product) (_hne : transactions ≠ []) :
    ((computeStats transactions product).checkoutVelocity =
      if 0 < totalCheckouts transactions then
        some ((totalCheckouts transactions : ℚ) / daysCoveredOf transactions)
      else none)
    ∧ (∀ v, (computeStats transactions product).checkoutVelocity = some v →
      0 < v ∧ (computeStats transactions product).daysUntilFrontEmpty =
        some ⌊(product.frontQuantity : ℚ) / v⌋)
    ∧ ((computeStats transactions product).checkoutVelocity = none →
      (computeStats transactions product).daysUntilFrontEmpty = none)
    ∧ ((computeStats demoScenarioTxns demoFrontProduct).daysCovered = 5
      ∧ (computeStats demoScenarioTxns demoFrontProduct).checkoutVelocity = some 4
      ∧ (computeStats demoScenarioTxns demoFrontProduct).daysUntilFrontEmpty = some 1) := by
  refine ⟨computeStats_checkoutVelocity transactions product, ?_, ?_, ?_, ?_, ?_⟩
  · intro v hv
    rw [computeStats_checkoutVelocity] at hv
    by_cases hc : 0 < totalCheckouts transactions
    · rw [if_pos hc] at hv
      obtain rfl : (totalCheckouts transactions : ℚ) / daysCoveredOf transactions = v :=
        Option.some.inj hv
      have hposv : 0 < (totalCheckouts transactions : ℚ) / daysCoveredOf transactions :=
        div_pos (by exact_mod_cast hc) (daysCoveredOf_pos transactions)
      exact ⟨hposv, by
        rw [computeStats_daysUntilFrontEmpty, if_pos hc, if_pos hposv]⟩
    · rw [if_neg hc] at hv
      exact Option.noConfusion hv
  · intro hnone
    rw [computeStats_checkoutVelocity] at hnone
    by_cases hc : 0 < totalCheckouts transactions
    · rw [if_pos hc] at hnone
      exact Option.noConfusion hnone
    · rw [computeStats_daysUntilFrontEmpty, if_neg hc]
  · show (computeStats demoScenarioTxns demoFrontProduct).daysCovered = 5
    exact demo_daysCovered
  · rw [computeStats_checkoutVelocity, demo_totalCheckouts, demo_daysCovered,
      if_pos (by norm_num : (0 : ℕ) < 20)]
    exact congrArg some (by norm_num)
  · rw [computeStats_daysUntilFrontEmpty, demo_totalCheckouts, demo_daysCovered,
      if_pos (by norm_num : (0 : ℕ) < 20),
      if_pos (show (0 : ℚ) < ((20 : ℕ) : ℚ) / 5 by norm_num)]
    refine congrArg some ?_
    have h4 : ((demoFrontProduct.frontQuantity : ℕ) : ℚ) / (((20 : ℕ) : ℚ) / 5) = 5 / 4 := by
      show ((5 : ℕ) : ℚ) / (((20 : ℕ) : ℚ) / 5) = 5 / 4
      norm_num
    rw [h4]
    exact Int.floor_eq_iff.mpr ⟨by norm_num, by norm_num⟩

/-- Witness for C2 on the spec scenario. -/
theorem computeStats_velocity_witness :
    (computeStats demoScenarioTxns demoFrontProduct).daysCovered = 5
    ∧ (computeStats demoScenarioTxns demoFrontProduct).checkoutVelocity = some 4
    ∧ (computeStats demoScenarioTxns demoFrontProduct).daysUntilFrontEmpty = some 1 :=
  (computeStats_velocity_spec demoScenarioTxns demoFrontProduct (by decide)).2.2.2

/-- The `wasteRate` field of `computeStats`, by unfolding
(`totalThroughput = totalCheckouts + totalWaste`,
AIPredictionCard.tsx lines 78–79). -/
theorem computeStats_wasteRate (transactions : List Transaction)
    (product : Product) :
    (computeStats transactions product).wasteRate =
      if 0 < totalCheckouts transactions + totalWaste transactions then
        some (((totalWaste transactions : ℚ) /
          ((totalCheckouts transactions + totalWaste transactions : ℕ) : ℚ)) * 100)
      else none := rfl

/-- C7: for every transaction list, `wasteRate` is
`totalWaste / (totalCheckouts + totalWaste) * 100` when the denominator
is positive and null otherwise, and any non-null value lies in
[0, 100]. -/
theorem computeStats_wasteRate_spec (transactions : List Transaction)
    (product : Product) :
    ((computeStats transactions product).wasteRate =
      if 0 < totalCheckouts transactions + totalWaste transactions then
        some (((totalWaste transactions : ℚ) /
          ((totalCheckouts transactions + totalWaste transactions : ℕ) : ℚ)) * 100)
      else none)
    ∧ (∀ r, (computeStats transactions product).wasteRate = some r →
      0 ≤ r ∧ r ≤ 100) := by
  refine ⟨computeStats_wasteRate transactions product, ?_⟩
  intro r hr
  rw [computeStats_wasteRate] at hr
  by_cases hpos : 0 < totalCheckouts transactions + totalWaste transactions
  · rw [if_pos hpos] at hr
    obtain rfl := (Option.some.inj hr).symm
    have hd : (0 : ℚ) <
        ((totalCheckouts transactions + totalWaste transactions : ℕ) : ℚ) := by
      exact_mod_cast hpos
    constructor
    · exact mul_nonneg (div_nonneg (Nat.cast_nonneg _) hd.le) (by norm_num)
    · have hle : (totalWaste transactions : ℚ) ≤
          ((totalCheckouts transactions + totalWaste transactions : ℕ) : ℚ) := by
        exact_mod_cast Nat.le_add_left _ _
      calc (totalWaste transactions : ℚ) /
            ((totalCheckouts transactions + totalWaste transactions : ℕ) : ℚ) * 100
          ≤ 1 * 100 :=
            mul_le_mul_of_nonneg_right ((div_le_one hd).mpr hle) (by norm_num)
        _ = 100 := one_mul 100
  · rw [if_neg hpos] at hr
    exact Option.noConfusion hr

/-- Witness for C7: the demo history yields a 50 % waste rate, which the
theorem places in [0, 100]. -/
theorem computeStats_wasteRate_witness :
    (computeStats demoWasteTxns demoFrontProduct).wasteRate = some 50
    ∧ (0 : ℚ) ≤ 50 ∧ (50 : ℚ) ≤ 100 := by
  have h50 : (computeStats demoWasteTxns demoFrontProduct).wasteRate = some 50 := by
    rw [computeStats_wasteRate,
      show totalWaste demoWasteTxns = 10 from rfl,
      show totalCheckouts demoWasteTxns = 10 from rfl,
      if_pos (by norm_num : (0 : ℕ) < 10 + 10)]
    refine congrArg some ?_
    push_cast
    norm_num
  exact ⟨h50, (computeStats_wasteRate_spec demoWasteTxns demoFrontProduct).2 50 h50⟩

/-- Clamping `max a (min b v)` stays below `b` whenever `a ≤ b`. -/
theorem clamp_le_right {a b v : ℚ} (hab : a ≤ b) : max a (min b v) ≤ b :=
  max_le hab (min_le_left _ _)

/-- In every zone the clamp interval `[min+15, max-15]` is non-empty. -/
theorem ZONES_bounds :
    ∀ z ∈ ZONES, z.xMin + 15 ≤ z.xMax - 15 ∧ z.yMin + 15 ≤ z.yMax - 15 := by
  intro z hz
  simp only [ZONES, List.mem_cons, List.not_mem_nil, or_false] at hz
  rcases hz with rfl | rfl | rfl <;> exact ⟨by norm_num, by norm_num⟩

/-- `ZONES[zoneIndex]` with the Retail Floor fallback is always a zone of
the list. -/
theorem getD_mem_ZONES (n : ℕ) : ZONES.getD n fallbackZone ∈ ZONES := by
  rw [List.getD_eq_getElem?_getD]
  cases h : ZONES[n]? with
  | none => exact List.mem_cons_self _ _
  | some z =>
    simp only [Option.getD_some]
    exact List.getElem?_mem h

/-- The zone index selected for a product by the 70/15/15 hash split
(FloorView.tsx lines 86–90). -/
def zoneIndexFor (p : Product) : ℕ :=
  if barcodeHash p.barcode % 100 < 70 then 0
  else if barcodeHash p.barcode % 100 < 85 then 1 else 2

/-- The zone assigned to a product by the default layout. -/
def zoneAssigned (p : Product) : Zone :=
  ZONES.getD (zoneIndexFor p) fallbackZone

/-- The assigned zone is one of the three concrete zones. -/
theorem zoneAssigned_cases (p : Product) :
    zoneAssigned p = fallbackZone
    ∨ zoneAssigned p = ⟨"Accessories", 785, 960, 40, 170⟩
    ∨ zoneAssigned p = ⟨"Back Storage", 785, 960, 210, 400⟩ := by
  unfold zoneAssigned zoneIndexFor
  split_ifs
  · exact Or.inl rfl
  · exact Or.inr (Or.inl rfl)
  · exact Or.inr (Or.inr rfl)

/-- `assignDefault` records the name of the assigned zone. -/
theorem assignDefault_zone (count i : ℕ) (p : Product) :
    (assignDefault count i p).zone = (zoneAssigned p).name := rfl

/-- The x coordinate of `assignDefault` is a clamp into the assigned
zone's x interval. -/
theorem assignDefault_x_clamp (count i : ℕ) (p : Product) :
    ∃ v, (assignDefault count i p).x =
      max ((zoneAssigned p).xMin + 15) (min ((zoneAssigned p).xMax - 15) v) :=
  ⟨_, rfl⟩

/-- The y coordinate of `assignDefault` is a clamp into the assigned
zone's y interval. -/
theorem assignDefault_y_clamp (count i : ℕ) (p : Product) :
    ∃ v, (assignDefault count i p).y =
      max ((zoneAssigned p).yMin + 15) (min ((zoneAssigned p).yMax - 15) v) :=
  ⟨_, rfl⟩

/-- Looking the assigned zone up again by name returns the same zone. -/
theorem zoneNamed_zoneAssigned (p : Product) :
    zoneNamed (zoneAssigned p).name = zoneAssigned p := by
  rcases zoneAssigned_cases p with h | h | h <;> rw [h] <;> rfl

/-- Every auto-generated single position lies at least 15 units inside
its assigned zone. -/
theorem assignDefault_within (count i : ℕ) (p : Product) :
    zoneNamed (assignDefault count i p).zone ∈ ZONES
    ∧ (zoneNamed (assignDefault count i p).zone).name = (assignDefault count i p).zone
    ∧ (zoneNamed (assignDefault count i p).zone).xMin + 15 ≤ (assignDefault count i p).x
    ∧ (assignDefault count i p).x ≤ (zoneNamed (assignDefault count i p).zone).xMax - 15
    ∧ (zoneNamed (assignDefault count i p).zone).yMin + 15 ≤ (assignDefault count i p).y
    ∧ (assignDefault count i p).y ≤ (zoneNamed (assignDefault count i p).zone).yMax - 15 := by
  obtain ⟨xv, hx⟩ := assignDefault_x_clamp count i p
  obtain ⟨yv, hy⟩ := assignDefault_y_clamp count i p
  have hbounds := ZONES_bounds (zoneAssigned p) (getD_mem_ZONES (zoneIndexFor p))
  rw [assignDefault_zone, zoneNamed_zoneAssigned]
  refine ⟨getD_mem_ZONES _, rfl, ?_, ?_, ?_, ?_⟩
  · rw [hx]; exact le_max_left _ _
  · rw [hx]; exact clamp_le_right hbounds.1
  · rw [hy]; exact le_max_left _ _
  · rw [hy]; exact clamp_le_right hbounds.2

/-- C4: every position produced by the no-override layout lies at least
15 units inside the bounds of its assigned zone (the zone of `ZONES`
bearing the position's zone name). -/
theorem assignPositions_within_zone (products : List Product)
    (pos : ProductPosition)
    (h : pos ∈ generatePositions products emptyOverrides) :
    zoneNamed pos.zone ∈ ZONES
    ∧ (zoneNamed pos.zone).name = pos.zone
    ∧ (zoneNamed pos.zone).xMin + 15 ≤ pos.x
    ∧ pos.x ≤ (zoneNamed pos.zone).xMax - 15
    ∧ (zoneNamed pos.zone).yMin + 15 ≤ pos.y
    ∧ pos.y ≤ (zoneNamed pos.zone).yMax - 15 := by
  unfold generatePositions at h
  by_cases hlen : products.length = 0
  · rw [if_pos hlen] at h
    exact absurd h (List.not_mem_nil _)
  · rw [if_neg hlen, List.mem_map] at h
    obtain ⟨ip, _, rfl⟩ := h
    exact assignDefault_within products.length ip.1 ip.2

/-- Witness for C4: the single demo product's default position. -/
theorem assignPositions_within_zone_witness :
    zoneNamed demoDefaultPos.zone ∈ ZONES
    ∧ (zoneNamed demoDefaultPos.zone).name = demoDefaultPos.zone
    ∧ (zoneNamed demoDefaultPos.zone).xMin + 15 ≤ demoDefaultPos.x
    ∧ demoDefaultPos.x ≤ (zoneNamed demoDefaultPos.zone).xMax - 15
    ∧ (zoneNamed demoDefaultPos.zone).yMin + 15 ≤ demoDefaultPos.y
    ∧ demoDefaultPos.y ≤ (zoneNamed demoDefaultPos.zone).yMax - 15 :=
  assignPositions_within_zone [demoLayoutProduct] demoDefaultPos (by
    rw [show generatePositions [demoLayoutProduct] emptyOverrides
      = [demoDefaultPos] from rfl]
    exact List.mem_singleton_self _)

/-- C5: after saving an override `{x, y}` for barcode `b`, resolution
returns for the product with that barcode exactly the position `(x, y)`
with the zone recomputed by the point-in-rectangle test, and that test
falls back to "Retail Floor" when no zone contains the point. -/
theorem generatePositions_override_roundtrip (products : List Product)
    (saved : Overrides) (b : String) (x y : ℚ) (i : ℕ) (p : Product)
    (hp : products[i]? = some p) (hb : p.barcode = b) :
    (generatePositions products (setOverride saved b x y))[i]? =
      some ⟨p, x, y, getZoneForPoint x y⟩
    ∧ ((∀ z ∈ ZONES, ¬(z.xMin ≤ x ∧ x ≤ z.xMax ∧ z.yMin ≤ y ∧ y ≤ z.yMax)) →
      getZoneForPoint x y = "Retail Floor") := by
  constructor
  · have hlen : ¬ products.length = 0 := by
      intro h0
      rw [List.length_eq_zero] at h0
      subst h0
      simp at hp
    have hov : setOverride saved b x y p.barcode = some ⟨x, y⟩ := by
      simp [setOverride, hb]
    unfold generatePositions
    rw [if_neg hlen, List.getElem?_map, List.getElem?_enum, hp, Option.map_some',
      Option.map_some']
    simp only [hov]
  · intro hall
    have hnone : ZONES.find? (fun zone =>
        decide (zone.xMin ≤ x) && decide (x ≤ zone.xMax) &&
        decide (zone.yMin ≤ y) && decide (y ≤ zone.yMax)) = none := by
      rw [List.find?_eq_none]
      intro z hz
      have hz2 := hall z hz
      simp only [Bool.and_eq_true, decide_eq_true_iff]
      tauto
    unfold getZoneForPoint
    rw [hnone]

/-- Witness for C5: overriding the demo product's position to (300, 300)
round-trips exactly. -/
theorem generatePositions_override_roundtrip_witness :
    (generatePositions [demoLayoutProduct]
      (setOverride emptyOverrides "A" 300 300))[0]? =
      some ⟨demoLayoutProduct, 300, 300, getZoneForPoint 300 300⟩ :=
  (generatePositions_override_roundtrip [demoLayoutProduct] emptyOverrides
    "A" 300 300 0 demoLayoutProduct rfl rfl).1

/-- Resolving with the empty override map is definitionally the default
layout algorithm. -/
theorem generatePositions_empty (products : List Product) :
    generatePositions products emptyOverrides =
      defaultGeneratePositions products := rfl

/-- C6: clearing the override map makes resolution coincide exactly with
the override-free default layout algorithm. -/
theorem resetPositions_resolve_eq_default (products : List Product)
    (saved : Overrides) :
    generatePositions products (resetPositions saved) =
      defaultGeneratePositions products := rfl

/-- C9: a corrupt storage payload (any payload the parser rejects) yields
the empty override map, and resolution then falls back to the default
layout for every product list. -/
theorem loadSavedPositions_corrupt_fallback (raw : String)
    (parse : String → Except String Overrides) (e : String)
    (h : parse raw = .error e) :
    loadSavedPositions (some raw) parse = emptyOverrides
    ∧ ∀ products, generatePositions products (loadSavedPositions (some raw) parse) =
      defaultGeneratePositions products := by
  have h0 : loadSavedPositions (some raw) parse =
      if raw = "" then emptyOverrides
      else
        match parse raw with
        | .ok m => m
        | .error _ => emptyOverrides := rfl
  have h1 : loadSavedPositions (some raw) parse = emptyOverrides := by
    by_cases hraw : raw = ""
    · rw [h0, if_pos hraw]
    · rw [h0, if_neg hraw, h]
  exact ⟨h1, fun products =>
    (congrArg (generatePositions products) h1).trans
      (generatePositions_empty products)⟩

/-- Witness for C9: a rejected payload leaves the demo product at its
default position. -/
theorem loadSavedPositions_corrupt_witness :
    loadSavedPositions (some "not-json") failParse = emptyOverrides
    ∧ generatePositions [demoLayoutProduct]
        (loadSavedPositions (some "not-json") failParse) =
      defaultGeneratePositions [demoLayoutProduct] :=
  ⟨(loadSavedPositions_corrupt_fallback "not-json" failParse "SyntaxError" rfl).1,
   (loadSavedPositions_corrupt_fallback "not-json" failParse "SyntaxError" rfl).2
     [demoLayoutProduct]⟩

/-- C3 (code bug): the filter pipeline of FloorView.tsx never consults
the needs-restock / needs-reorder flags.  With the needs-restock filter
enabled and a position whose product does not need restocking, the
pipeline keeps the position anyway, contradicting the documented filter
semantics ("keep only positions whose advice flag is set"). -/
theorem filteredPositions_ignores_restock_flag :
    (getStockAdvice demoHealthyProduct).needsRestock = false
    ∧ demoRestockFilters.showNeedsRestock = true
    ∧ filteredPositions [demoHealthyPosition] demoRestockFilters =
      [demoHealthyPosition] :=
  ⟨rfl, rfl, rfl⟩
